import Mathlib

/-!
Verification development for the Wan2GP configuration-tab plugin
(plugins/wan2gp-configuration/plugin.py).

The plugin's save handler `_save_changes(self, state, *args)` is embedded
shallowly below as `save_changes`.  Python dictionaries are modelled as
insertion-ordered association lists (`Dict`), Python strings as Lean
strings with hand-rolled `strip` / `split` / `replace` helpers that follow
CPython semantics, and side effects (the JSON file write, the in-memory
`server_config` mutation, the checkpoints-paths registry update performed
by `fl.set_checkpoints_paths`) as fields of an explicit result record.
A lookup of a missing key in the `state` dictionary is modelled as a
`keyError` outcome, mirroring the exception a Python subscript raises.
-/

/-- A Python value stored in the configuration dictionary: a string, an
integer, a boolean, or a list of strings (multiselect / path fields). -/
inductive CVal where
  | s (v : String)
  | i (v : Int)
  | b (v : Bool)
  | ls (v : List String)
  deriving DecidableEq, Repr

/-- A Python dict with string keys, modelled as an insertion-ordered
association list whose keys are unique by construction. -/
abbrev Dict := List (String × CVal)

/-- Python dict subscript: the value at a key, or none (KeyError). -/
def Dict.lookup (d : Dict) (k : String) : Option CVal :=
  match d with
  | [] => none
  | (k2, v) :: rest => if k2 = k then some v else Dict.lookup rest k

/-- Python dict assignment d[k] = v: replaces the value in place when the
key is present, otherwise appends the new key at the end (CPython keeps
insertion order). -/
def Dict.set (d : Dict) (k : String) (v : CVal) : Dict :=
  match d with
  | [] => [(k, v)]
  | (k2, v2) :: rest => if k2 = k then (k, v) :: rest else (k2, v2) :: Dict.set rest k v

/-- Python dict.update(other): assigns every key/value pair of other. -/
def Dict.updateWith (d : Dict) (other : Dict) : Dict :=
  other.foldl (fun acc kv => Dict.set acc kv.1 kv.2) d

/-- The keys of a dict, in insertion order. -/
def Dict.keys (d : Dict) : List String := d.map (fun kv => kv.1)

/-- CPython str.isspace characters relevant to str.strip (ASCII range):
space, tab, newline, carriage return, vertical tab, form feed. -/
def pyIsSpace (c : Char) : Bool :=
  c = ' ' || c = '\t' || c = '\n' || c = '\r' || c = '\x0b' || c = '\x0c'

/-- Python str.strip on a list of characters: drop whitespace from both
ends. -/
def pyStripList (l : List Char) : List Char :=
  ((l.dropWhile pyIsSpace).reverse.dropWhile pyIsSpace).reverse

/-- Python str.strip. -/
def pyStrip (t : String) : String := ⟨pyStripList t.data⟩

/-- Python t.replace("\r", ""). -/
def removeCR (t : String) : String := ⟨t.data.filter (fun c => c ≠ '\r')⟩

/-- Python str.split("\n") on a character list: always at least one piece;
each newline character starts a new piece. -/
def splitOnNL : List Char → List (List Char)
  | [] => [[]]
  | c :: rest =>
    let ps := splitOnNL rest
    if c = '\n' then [] :: ps
    else (c :: ps.headD []) :: ps.tail

/-- Python t.split("\n"). -/
def splitNL (t : String) : List String := (splitOnNL t.data).map (fun l => ⟨l⟩)

/-- Lines 202-203 of plugin.py for a non-empty submission: remove carriage
returns, split on newlines, keep the lines whose stripped form is
non-empty, stripped. -/
def splitTrimDrop (t : String) : List String :=
  ((splitNL (removeCR t)).filter (fun p => 0 < (pyStrip p).data.length)).map pyStrip

/-- Lines 199-203 of plugin.py: the checkpoints-paths list computed from
the submitted text, falling back to the default list when the stripped
text is empty. -/
def computeCheckpoints (defaults : List String) (t : String) : List String :=
  if (pyStrip t).data.length = 0 then defaults else splitTrimDrop t

/-- The 35 form values unpacked from *args at lines 182-197 of plugin.py,
in unpacking order.  The checkpoints text field is a string (a Textbox
value); every other field is an arbitrary submitted value. -/
structure FormInputs where
  transformer_types_choices : CVal
  model_hierarchy_type_choice : CVal
  fit_canvas_choice : CVal
  attention_choice : CVal
  preload_model_policy_choice : CVal
  clear_file_list_choice : CVal
  display_stats_choice : CVal
  max_frames_multiplier_choice : CVal
  checkpoints_paths_choice : String
  UI_theme_choice : CVal
  queue_color_scheme_choice : CVal
  quantization_choice : CVal
  transformer_dtype_policy_choice : CVal
  mixed_precision_choice : CVal
  text_encoder_quantization_choice : CVal
  VAE_precision_choice : CVal
  compile_choice : CVal
  depth_anything_v2_variant_choice : CVal
  vae_config_choice : CVal
  boost_choice : CVal
  profile_choice : CVal
  preload_in_VRAM_choice : CVal
  enhancer_enabled_choice : CVal
  enhancer_mode_choice : CVal
  mmaudio_enabled_choice : CVal
  video_output_codec_choice : CVal
  image_output_codec_choice : CVal
  audio_output_codec_choice : CVal
  metadata_choice : CVal
  embed_source_images_choice : CVal
  save_path_choice : CVal
  image_save_path_choice : CVal
  notification_sound_enabled_choice : CVal
  notification_sound_volume_choice : CVal
  last_resolution_choice : CVal
  deriving Repr

/-- The plugin-visible environment of _save_changes: the lock flag
(args.lock_config), the in-memory server_config, the default
checkpoints-path list (fl.default_checkpoints_paths) and the current
checkpoints-paths registry held by fl. -/
structure PluginState where
  lock_config : Bool
  server_config : Dict
  default_checkpoints_paths : List String
  registry_paths : List String
  deriving Repr

/-- How _save_changes finished: a returned message string, or a KeyError
raised by a state subscript (carrying the missing key). -/
inductive SaveOutput where
  | ok (msg : String)
  | keyError (key : String)
  deriving DecidableEq, Repr

/-- The observable outcome of one _save_changes call: its output, the
record written to the JSON file (none when no write happened), the
in-memory server_config afterwards, and the checkpoints-paths registry
afterwards. -/
structure SaveResult where
  output : SaveOutput
  written : Option Dict
  server_config : Dict
  registry_paths : List String
  deriving Repr

/-- Line 180 of plugin.py: the red locked notice. -/
def lockedMessage : String :=
  "<div style=\x27color:red; text-align:center;\x27>Configuration is locked by command-line arguments.</div>"

/-- Line 247 of plugin.py: the green success notice. -/
def savedMessage : String :=
  "<div style=\x27color:green; text-align:center;\x27>Settings saved. Please restart the application for all changes to take effect.</div>"

/-- Lines 207-233 of plugin.py: the new_server_config dictionary literal,
with the state subscripts passed as already-evaluated arguments. -/
def dict_literal (f : FormInputs) (checkpoints_paths : List String)
    (model_type last_model_per_family last_model_per_type advanced
     last_resolution_per_group : CVal) : Dict := [
    ("attention_mode", f.attention_choice),
    ("transformer_types", f.transformer_types_choices),
    ("text_encoder_quantization", f.text_encoder_quantization_choice),
    ("save_path", f.save_path_choice),
    ("image_save_path", f.image_save_path_choice),
    ("compile", f.compile_choice),
    ("profile", f.profile_choice),
    ("vae_config", f.vae_config_choice),
    ("vae_precision", f.VAE_precision_choice),
    ("mixed_precision", f.mixed_precision_choice),
    ("metadata_type", f.metadata_choice),
    ("transformer_quantization", f.quantization_choice),
    ("transformer_dtype_policy", f.transformer_dtype_policy_choice),
    ("boost", f.boost_choice),
    ("clear_file_list", f.clear_file_list_choice),
    ("preload_model_policy", f.preload_model_policy_choice),
    ("UI_theme", f.UI_theme_choice),
    ("fit_canvas", f.fit_canvas_choice),
    ("enhancer_enabled", f.enhancer_enabled_choice),
    ("enhancer_mode", f.enhancer_mode_choice),
    ("mmaudio_enabled", f.mmaudio_enabled_choice),
    ("preload_in_VRAM", f.preload_in_VRAM_choice),
    ("depth_anything_v2_variant", f.depth_anything_v2_variant_choice),
    ("notification_sound_enabled", f.notification_sound_enabled_choice),
    ("notification_sound_volume", f.notification_sound_volume_choice),
    ("max_frames_multiplier", f.max_frames_multiplier_choice),
    ("display_stats", f.display_stats_choice),
    ("video_output_codec", f.video_output_codec_choice),
    ("image_output_codec", f.image_output_codec_choice),
    ("audio_output_codec", f.audio_output_codec_choice),
    ("model_hierarchy_type", f.model_hierarchy_type_choice),
    ("checkpoints_paths", CVal.ls checkpoints_paths),
    ("queue_color_scheme", f.queue_color_scheme_choice),
    ("embed_source_images", f.embed_source_images_choice),
    ("last_model_type", model_type),
    ("last_model_per_family", last_model_per_family),
    ("last_model_per_type", last_model_per_type),
    ("last_advanced_choice", advanced),
    ("last_resolution_choice", f.last_resolution_choice),
    ("last_resolution_per_group", last_resolution_per_group)]

/-- Lines 207-241 of plugin.py: the new_server_config dictionary literal,
the conditional enabled_plugins carry-over (line 235-236), and the
lock_config override of attention_mode and compile (lines 238-240). -/
def build_record (lock_config : Bool) (prior : Dict) (f : FormInputs)
    (checkpoints_paths : List String)
    (model_type last_model_per_family last_model_per_type advanced
     last_resolution_per_group : CVal) : Dict :=
  let base : Dict := dict_literal f checkpoints_paths model_type
    last_model_per_family last_model_per_type advanced last_resolution_per_group
  let withPlugins : Dict :=
    match Dict.lookup prior "enabled_plugins" with
    | some v => Dict.set base "enabled_plugins" v
    | none => base
  if lock_config then
    let n1 : Dict :=
      match Dict.lookup prior "attention_mode" with
      | some v => Dict.set withPlugins "attention_mode" v
      | none => withPlugins
    match Dict.lookup prior "compile" with
    | some v => Dict.set n1 "compile" v
    | none => n1
  else withPlugins

/-- Lines 178-247 of plugin.py: _save_changes.  The early lock_config
return leaves everything untouched; otherwise the checkpoints-paths list
is computed and installed in the registry, then the state subscripts are
evaluated in the order they occur in the dict literal (a missing key
raises, after the registry was already updated), the record is built,
written, and merged into server_config. -/
def save_changes (ps : PluginState) (state : Dict) (f : FormInputs) : SaveResult :=
  if ps.lock_config then
    { output := SaveOutput.ok lockedMessage, written := none,
      server_config := ps.server_config, registry_paths := ps.registry_paths }
  else
    let checkpoints_paths := computeCheckpoints ps.default_checkpoints_paths f.checkpoints_paths_choice
    match Dict.lookup state "model_type" with
    | none => { output := SaveOutput.keyError "model_type", written := none,
                server_config := ps.server_config, registry_paths := checkpoints_paths }
    | some model_type =>
      match Dict.lookup state "last_model_per_family" with
      | none => { output := SaveOutput.keyError "last_model_per_family", written := none,
                  server_config := ps.server_config, registry_paths := checkpoints_paths }
      | some last_model_per_family =>
        match Dict.lookup state "last_model_per_type" with
        | none => { output := SaveOutput.keyError "last_model_per_type", written := none,
                    server_config := ps.server_config, registry_paths := checkpoints_paths }
        | some last_model_per_type =>
          match Dict.lookup state "advanced" with
          | none => { output := SaveOutput.keyError "advanced", written := none,
                      server_config := ps.server_config, registry_paths := checkpoints_paths }
          | some advanced =>
            match Dict.lookup state "last_resolution_per_group" with
            | none => { output := SaveOutput.keyError "last_resolution_per_group", written := none,
                        server_config := ps.server_config, registry_paths := checkpoints_paths }
            | some last_resolution_per_group =>
              let newConfig := build_record ps.lock_config ps.server_config f checkpoints_paths
                model_type last_model_per_family last_model_per_type advanced
                last_resolution_per_group
              { output := SaveOutput.ok savedMessage,
                written := some newConfig,
                server_config := Dict.updateWith ps.server_config newConfig,
                registry_paths := checkpoints_paths }

/-- The outcome of _save_and_restart: the inner save outcome and whether
quit_application was reached. -/
structure RestartResult where
  save : SaveResult
  quit_called : Bool
  deriving Repr

/-- Lines 249-252 of plugin.py: _save_and_restart calls _save_changes,
discards its return value, and calls quit_application; an exception
raised inside _save_changes propagates, skipping the quit call. -/
def save_and_restart (ps : PluginState) (state : Dict) (f : FormInputs) : RestartResult :=
  let r := save_changes ps state f
  match r.output with
  | SaveOutput.ok _ => { save := r, quit_called := true }
  | SaveOutput.keyError _ => { save := r, quit_called := false }

/-- The key list of the new_server_config dict literal of lines 207-233,
in source order: the schema determined by the form fields and the
state-derived last-used entries. -/
def schemaKeys : List String :=
  ["attention_mode", "transformer_types", "text_encoder_quantization", "save_path",
   "image_save_path", "compile", "profile", "vae_config", "vae_precision",
   "mixed_precision", "metadata_type", "transformer_quantization",
   "transformer_dtype_policy", "boost", "clear_file_list", "preload_model_policy",
   "UI_theme", "fit_canvas", "enhancer_enabled", "enhancer_mode", "mmaudio_enabled",
   "preload_in_VRAM", "depth_anything_v2_variant", "notification_sound_enabled",
   "notification_sound_volume", "max_frames_multiplier", "display_stats",
   "video_output_codec", "image_output_codec", "audio_output_codec",
   "model_hierarchy_type", "checkpoints_paths", "queue_color_scheme",
   "embed_source_images", "last_model_type", "last_model_per_family",
   "last_model_per_type", "last_advanced_choice", "last_resolution_choice",
   "last_resolution_per_group"]

/-- A well-formed checkpoints path entry: non-empty, free of carriage
returns, and with no leading or trailing whitespace character. -/
def cleanPath (s : String) : Prop :=
  s.data ≠ [] ∧
  (∀ c ∈ s.data, c ≠ '\r') ∧
  s.data.head?.all (fun c => !pyIsSpace c) = true ∧
  s.data.getLast?.all (fun c => !pyIsSpace c) = true

instance (s : String) : Decidable (cleanPath s) := by
  unfold cleanPath; infer_instance

/-- The specification's wording of the path-list normalization: remove
carriage returns, split the text on newline characters, strip whitespace
from each line, drop the lines that are empty after stripping, keeping
the order of the remaining lines. -/
def specSplitTrim (t : String) : List String :=
  ((splitNL (removeCR t)).map pyStrip).filter (fun s => 0 < s.data.length)

/-- A concrete state dictionary holding the five keys _save_changes reads. -/
def exState : Dict :=
  [("model_type", CVal.s "t2v"), ("last_model_per_family", CVal.s "wan"),
   ("last_model_per_type", CVal.s "wan_t2v"), ("advanced", CVal.b false),
   ("last_resolution_per_group", CVal.s "832x480")]

/-- A state dictionary missing the model_type key. -/
def exStateEmpty : Dict := []

/-- A concrete form submission with a mixed multi-line checkpoints text. -/
def exForm : FormInputs :=
  { transformer_types_choices := CVal.ls ["t2v"]
    model_hierarchy_type_choice := CVal.i 1
    fit_canvas_choice := CVal.i 0
    attention_choice := CVal.s "sdpa"
    preload_model_policy_choice := CVal.ls ["P"]
    clear_file_list_choice := CVal.i 5
    display_stats_choice := CVal.i 0
    max_frames_multiplier_choice := CVal.i 1
    checkpoints_paths_choice := "ckpts\n  models/ckpts  \n\n"
    UI_theme_choice := CVal.s "default"
    queue_color_scheme_choice := CVal.s "pastel"
    quantization_choice := CVal.s "int8"
    transformer_dtype_policy_choice := CVal.s ""
    mixed_precision_choice := CVal.s "0"
    text_encoder_quantization_choice := CVal.s "bf16"
    VAE_precision_choice := CVal.s "16"
    compile_choice := CVal.s ""
    depth_anything_v2_variant_choice := CVal.s "vitl"
    vae_config_choice := CVal.i 0
    boost_choice := CVal.i 1
    profile_choice := CVal.i 4
    preload_in_VRAM_choice := CVal.i 0
    enhancer_enabled_choice := CVal.i 0
    enhancer_mode_choice := CVal.i 0
    mmaudio_enabled_choice := CVal.i 0
    video_output_codec_choice := CVal.s "libx264_8"
    image_output_codec_choice := CVal.s "jpeg_95"
    audio_output_codec_choice := CVal.s "aac_128"
    metadata_choice := CVal.s "metadata"
    embed_source_images_choice := CVal.b false
    save_path_choice := CVal.s "outputs"
    image_save_path_choice := CVal.s "outputs"
    notification_sound_enabled_choice := CVal.i 0
    notification_sound_volume_choice := CVal.i 50
    last_resolution_choice := CVal.s "832x480" }

/-- The same submission with a whitespace-only checkpoints text. -/
def exFormWS : FormInputs := { exForm with checkpoints_paths_choice := "  \n\t\r\n " }

/-- A prior server_config without enabled_plugins, holding values that
differ from the submission for the lock-sensitive fields and a stale key
outside the form schema. -/
def exPrior : Dict :=
  [("attention_mode", CVal.s "sage"), ("compile", CVal.s "transformer"),
   ("UI_theme", CVal.s "gradio"), ("stale_key", CVal.i 3)]

/-- The same prior server_config with an enabled_plugins entry. -/
def exPriorEP : Dict := exPrior ++ [("enabled_plugins", CVal.ls ["cfgtab"])]

/-- The default checkpoints-path list used by the concrete examples. -/
def exDefaults : List String := ["ckpts"]

/-- Unlocked plugin state. -/
def exPsUnlocked : PluginState :=
  { lock_config := false, server_config := exPrior,
    default_checkpoints_paths := exDefaults, registry_paths := exDefaults }

/-- Locked plugin state. -/
def exPsLocked : PluginState :=
  { lock_config := true, server_config := exPrior,
    default_checkpoints_paths := exDefaults, registry_paths := exDefaults }

/-- Unlocked plugin state whose prior config has enabled_plugins. -/
def exPsEP : PluginState :=
  { lock_config := false, server_config := exPriorEP,
    default_checkpoints_paths := exDefaults, registry_paths := exDefaults }

/-- Unlocked plugin state whose default path list is non-empty but contains
an empty entry. -/
def exPsBadDefault : PluginState :=
  { lock_config := false, server_config := exPrior,
    default_checkpoints_paths := [""], registry_paths := ["ckpts"] }

/-- The record written by the unlocked example save. -/
def exWritten : Dict := ((save_changes exPsUnlocked exState exForm).written).getD []

/-- The record written by the unlocked example save whose prior config has
enabled_plugins. -/
def exWrittenEP : Dict := ((save_changes exPsEP exState exForm).written).getD []

/-! ### Helper lemmas about the string primitives -/

theorem dropWhile_head_all {α : Type} (p : α → Bool) (l : List α) :
    (l.dropWhile p).head?.all (fun c => !p c) = true := by
  have h := List.head?_dropWhile_not p l
  cases e : (l.dropWhile p).head? with
  | none => rfl
  | some c => rw [e] at h; simp [h]

theorem dropWhile_getLast {α : Type} (p : α → Bool) (l : List α) :
    l.dropWhile p = [] ∨ (l.dropWhile p).getLast? = l.getLast? := by
  induction l with
  | nil => left; rfl
  | cons c t ih =>
    by_cases hc : p c
    · rw [List.dropWhile_cons, if_pos hc]
      cases e : List.dropWhile p t with
      | nil => left; rfl
      | cons d t2 =>
        right
        rcases ih with h | h
        · simp [h] at e
        · rw [e] at h
          rw [h]
          cases t with
          | nil => simp [List.dropWhile_nil] at e
          | cons x xs => rw [List.getLast?_cons_cons]
    · rw [List.dropWhile_cons, if_neg hc]
      right; rfl

theorem mem_pyStripList {l : List Char} {c : Char} (h : c ∈ pyStripList l) : c ∈ l := by
  unfold pyStripList at h
  rw [List.mem_reverse] at h
  have h2 := (List.dropWhile_sublist _).subset h
  rw [List.mem_reverse] at h2
  exact (List.dropWhile_sublist _).subset h2

theorem pyStripList_eq_nil_iff {l : List Char} :
    pyStripList l = [] ↔ ∀ c ∈ l, pyIsSpace c = true := by
  unfold pyStripList
  rw [List.reverse_eq_nil_iff, List.dropWhile_eq_nil_iff]
  constructor
  · intro h c hc
    have hsplit := List.takeWhile_append_dropWhile pyIsSpace l
    rw [← hsplit, List.mem_append] at hc
    rcases hc with hc | hc
    · exact List.mem_takeWhile_imp hc
    · exact h c (List.mem_reverse.mpr hc)
  · intro h c hc
    exact h c ((List.dropWhile_sublist _).subset (List.mem_reverse.mp hc))

theorem pyStripList_getLast_all (l : List Char) :
    (pyStripList l).getLast?.all (fun c => !pyIsSpace c) = true := by
  unfold pyStripList
  rw [List.getLast?_reverse]
  exact dropWhile_head_all _ _

theorem pyStripList_head_all (l : List Char) :
    (pyStripList l).head?.all (fun c => !pyIsSpace c) = true := by
  unfold pyStripList
  rw [List.head?_reverse]
  rcases dropWhile_getLast pyIsSpace (List.dropWhile pyIsSpace l).reverse with h | h
  · rw [h]; rfl
  · rw [h, List.getLast?_reverse]
    exact dropWhile_head_all _ _

theorem splitOnNL_ne_nil (l : List Char) : splitOnNL l ≠ [] := by
  cases l with
  | nil => simp [splitOnNL]
  | cons c rest =>
    simp only [splitOnNL]
    by_cases h : c = '\n' <;> simp [h]

theorem mem_of_mem_splitOnNL {l : List Char} {p : List Char} {c : Char}
    (hp : p ∈ splitOnNL l) (hc : c ∈ p) : c ∈ l := by
  induction l generalizing p with
  | nil =>
    simp [splitOnNL] at hp
    subst hp; cases hc
  | cons d rest ih =>
    by_cases hd : d = '\n'
    · rw [show splitOnNL (d :: rest) = [] :: splitOnNL rest from by simp [splitOnNL, hd]] at hp
      rcases List.mem_cons.mp hp with h | h
      · subst h; cases hc
      · exact List.mem_cons_of_mem _ (ih h hc)
    · obtain ⟨h0, t0, e⟩ := List.exists_cons_of_ne_nil (splitOnNL_ne_nil rest)
      rw [show splitOnNL (d :: rest) = (d :: h0) :: t0 from by simp [splitOnNL, hd, e]] at hp
      rcases List.mem_cons.mp hp with h | h
      · subst h
        rcases List.mem_cons.mp hc with h2 | h2
        · subst h2; exact List.mem_cons_self _ _
        · exact List.mem_cons_of_mem _ (ih (by rw [e]; exact List.mem_cons_self _ _) h2)
      · exact List.mem_cons_of_mem _ (ih (by rw [e]; exact List.mem_cons_of_mem _ h) hc)

theorem mem_splitOnNL_of_mem {l : List Char} {c : Char} (hc : c ∈ l) :
    c = '\n' ∨ ∃ p ∈ splitOnNL l, c ∈ p := by
  induction l with
  | nil => cases hc
  | cons d rest ih =>
    by_cases hd : d = '\n'
    · rcases List.mem_cons.mp hc with h | h
      · left; rw [h, hd]
      · rcases ih h with h2 | ⟨p, hp, hcp⟩
        · left; exact h2
        · right
          refine ⟨p, ?_, hcp⟩
          rw [show splitOnNL (d :: rest) = [] :: splitOnNL rest from by simp [splitOnNL, hd]]
          exact List.mem_cons_of_mem _ hp
    · obtain ⟨h0, t0, e⟩ := List.exists_cons_of_ne_nil (splitOnNL_ne_nil rest)
      have esplit : splitOnNL (d :: rest) = (d :: h0) :: t0 := by simp [splitOnNL, hd, e]
      rcases List.mem_cons.mp hc with h | h
      · right
        exact ⟨d :: h0, by rw [esplit]; exact List.mem_cons_self _ _,
               by rw [h]; exact List.mem_cons_self _ _⟩
      · rcases ih h with h2 | ⟨p, hp, hcp⟩
        · left; exact h2
        · right
          rw [e] at hp
          rcases List.mem_cons.mp hp with h3 | h3
          · exact ⟨d :: h0, by rw [esplit]; exact List.mem_cons_self _ _,
                   List.mem_cons_of_mem _ (h3 ▸ hcp)⟩
          · exact ⟨p, by rw [esplit]; exact List.mem_cons_of_mem _ h3, hcp⟩

theorem splitTrimDrop_eq_nil_imp {t : String} (h : splitTrimDrop t = []) :
    (pyStrip t).data.length = 0 := by
  unfold splitTrimDrop at h
  rw [List.map_eq_nil_iff, List.filter_eq_nil_iff] at h
  rw [List.length_eq_zero]
  show pyStripList t.data = []
  rw [pyStripList_eq_nil_iff]
  intro c hc
  by_cases hcr : c = '\r'
  · rw [hcr]; rfl
  · have hmem : c ∈ (removeCR t).data := by
      show c ∈ t.data.filter (fun c => c ≠ '\r')
      rw [List.mem_filter]
      exact ⟨hc, by simp [hcr]⟩
    rcases mem_splitOnNL_of_mem hmem with hnl | ⟨p, hp, hcp⟩
    · rw [hnl]; rfl
    · have hpiece : (⟨p⟩ : String) ∈ splitNL (removeCR t) := by
        unfold splitNL
        exact List.mem_map.mpr ⟨p, hp, rfl⟩
      have h0 := h _ hpiece
      simp only [decide_eq_true_eq, Nat.not_lt, Nat.le_zero, List.length_eq_zero] at h0
      have hall : ∀ c2 ∈ p, pyIsSpace c2 = true := by
        have : pyStripList p = [] := h0
        exact pyStripList_eq_nil_iff.mp this
      exact hall c hcp

/-! ### Helper lemmas about the dict model -/

theorem Dict.lookup_set_self (d : Dict) (k : String) (v : CVal) :
    Dict.lookup (Dict.set d k v) k = some v := by
  induction d with
  | nil => simp [Dict.set, Dict.lookup]
  | cons kv rest ih =>
    obtain ⟨k2, v2⟩ := kv
    by_cases h : k2 = k
    · simp [Dict.set, h, Dict.lookup]
    · simp [Dict.set, h, Dict.lookup, ih]

theorem Dict.lookup_set_ne (d : Dict) {k k2 : String} (v : CVal) (h : k2 ≠ k) :
    Dict.lookup (Dict.set d k v) k2 = Dict.lookup d k2 := by
  induction d with
  | nil => simp [Dict.set, Dict.lookup, Ne.symm h]
  | cons kv rest ih =>
    obtain ⟨k3, v3⟩ := kv
    by_cases h3 : k3 = k
    · subst h3
      simp [Dict.set, Dict.lookup, Ne.symm h]
    · simp [Dict.set, h3, Dict.lookup, ih]

theorem Dict.lookup_eq_none_iff (d : Dict) (k : String) :
    Dict.lookup d k = none ↔ k ∉ Dict.keys d := by
  induction d with
  | nil => simp [Dict.lookup, Dict.keys]
  | cons kv rest ih =>
    obtain ⟨k2, v2⟩ := kv
    by_cases h : k2 = k
    · subst h
      simp [Dict.lookup, Dict.keys]
    · simp [Dict.lookup, Dict.keys, h, ih, Ne.symm h]

theorem Dict.set_of_not_mem (d : Dict) (k : String) (v : CVal) (h : k ∉ Dict.keys d) :
    Dict.set d k v = d ++ [(k, v)] := by
  induction d with
  | nil => rfl
  | cons kv rest ih =>
    obtain ⟨k2, v2⟩ := kv
    simp only [Dict.keys, List.map_cons, List.mem_cons] at h
    push_neg at h
    simp [Dict.set, Ne.symm h.1, ih (by simpa [Dict.keys] using h.2)]

theorem Dict.keys_append (d1 d2 : Dict) :
    Dict.keys (d1 ++ d2) = Dict.keys d1 ++ Dict.keys d2 := by
  simp [Dict.keys]

theorem Dict.lookup_updateWith_not_mem (other : Dict) :
    ∀ (d : Dict) (k : String), k ∉ Dict.keys other →
      Dict.lookup (Dict.updateWith d other) k = Dict.lookup d k := by
  induction other with
  | nil => intro d k _; rfl
  | cons kv rest ih =>
    intro d k h
    obtain ⟨k2, v2⟩ := kv
    have h2 : k ∉ k2 :: Dict.keys rest := h
    show Dict.lookup (Dict.updateWith (Dict.set d k2 v2) rest) k = Dict.lookup d k
    rw [ih (Dict.set d k2 v2) k (fun hm => h2 (List.mem_cons_of_mem _ hm))]
    exact Dict.lookup_set_ne d v2 (fun e => h2 (by rw [e]; exact List.mem_cons_self _ _))

theorem Dict.lookup_updateWith_of_lookup (other : Dict) :
    ∀ (d : Dict), (Dict.keys other).Nodup → ∀ {k : String} {v : CVal},
      Dict.lookup other k = some v →
      Dict.lookup (Dict.updateWith d other) k = some v := by
  induction other with
  | nil => intro d _ k v h; cases h
  | cons kv rest ih =>
    intro d hnd k v h
    obtain ⟨k2, v2⟩ := kv
    have hnd2 := List.nodup_cons.mp (hnd : (k2 :: Dict.keys rest).Nodup)
    have h2 : (if k2 = k then some v2 else Dict.lookup rest k) = some v := h
    show Dict.lookup (Dict.updateWith (Dict.set d k2 v2) rest) k = some v
    by_cases e : k2 = k
    · subst e
      rw [if_pos rfl] at h2
      rw [Dict.lookup_updateWith_not_mem rest _ _ hnd2.1, Dict.lookup_set_self]
      exact h2
    · rw [if_neg e] at h2
      exact ih (Dict.set d k2 v2) hnd2.2 h2

/-! ### Facts about the built record -/

theorem dict_literal_keys (f : FormInputs) (cp : List String) (a b c d e : CVal) :
    Dict.keys (dict_literal f cp a b c d e) = schemaKeys := rfl

theorem ep_not_mem_schemaKeys : "enabled_plugins" ∉ schemaKeys := by decide

theorem schemaKeys_nodup : schemaKeys.Nodup := by decide

theorem schemaKeys_ep_nodup : (schemaKeys ++ ["enabled_plugins"]).Nodup := by decide

theorem build_record_false_eq (prior : Dict) (f : FormInputs) (cp : List String)
    (a b c d e : CVal) :
    build_record false prior f cp a b c d e =
      (match Dict.lookup prior "enabled_plugins" with
       | some v => Dict.set (dict_literal f cp a b c d e) "enabled_plugins" v
       | none => dict_literal f cp a b c d e) := rfl

theorem build_record_false_keys (prior : Dict) (f : FormInputs) (cp : List String)
    (a b c d e : CVal) :
    Dict.keys (build_record false prior f cp a b c d e) =
      (if (Dict.lookup prior "enabled_plugins").isSome
       then schemaKeys ++ ["enabled_plugins"] else schemaKeys) := by
  cases hep : Dict.lookup prior "enabled_plugins" with
  | none =>
    simp only [build_record_false_eq, hep, Option.isSome_none, Bool.false_eq_true, if_false]
    exact dict_literal_keys f cp a b c d e
  | some v =>
    simp only [build_record_false_eq, hep, Option.isSome_some, if_true]
    rw [Dict.set_of_not_mem _ _ _ (by rw [dict_literal_keys]; exact ep_not_mem_schemaKeys)]
    rw [Dict.keys_append, dict_literal_keys]
    rfl

theorem build_record_false_lookup_not_ep (prior : Dict) (f : FormInputs)
    (cp : List String) (a b c d e : CVal) {k : String} (hk : k ≠ "enabled_plugins") :
    Dict.lookup (build_record false prior f cp a b c d e) k =
      Dict.lookup (dict_literal f cp a b c d e) k := by
  rw [build_record_false_eq]
  cases Dict.lookup prior "enabled_plugins" with
  | none => rfl
  | some v => exact Dict.lookup_set_ne _ _ hk

theorem build_record_false_lookup_ep (prior : Dict) (f : FormInputs)
    (cp : List String) (a b c d e : CVal) :
    Dict.lookup (build_record false prior f cp a b c d e) "enabled_plugins" =
      Dict.lookup prior "enabled_plugins" := by
  rw [build_record_false_eq]
  cases hep : Dict.lookup prior "enabled_plugins" with
  | none => rfl
  | some v => exact Dict.lookup_set_self _ _ _

theorem dict_literal_lookup_attention (f : FormInputs) (cp : List String)
    (a b c d e : CVal) :
    Dict.lookup (dict_literal f cp a b c d e) "attention_mode" = some f.attention_choice := rfl

theorem dict_literal_lookup_compile (f : FormInputs) (cp : List String)
    (a b c d e : CVal) :
    Dict.lookup (dict_literal f cp a b c d e) "compile" = some f.compile_choice := rfl

theorem dict_literal_lookup_checkpoints (f : FormInputs) (cp : List String)
    (a b c d e : CVal) :
    Dict.lookup (dict_literal f cp a b c d e) "checkpoints_paths" = some (CVal.ls cp) := rfl

/-! ### Case facts about save_changes -/

theorem save_changes_locked (ps : PluginState) (st : Dict) (f : FormInputs)
    (h : ps.lock_config = true) :
    save_changes ps st f =
      { output := SaveOutput.ok lockedMessage, written := none,
        server_config := ps.server_config, registry_paths := ps.registry_paths } := by
  unfold save_changes
  rw [if_pos h]

theorem save_changes_registry_unlocked (ps : PluginState) (st : Dict) (f : FormInputs)
    (h : ps.lock_config = false) :
    (save_changes ps st f).registry_paths =
      computeCheckpoints ps.default_checkpoints_paths f.checkpoints_paths_choice := by
  simp only [save_changes, h, Bool.false_eq_true, if_false]
  cases Dict.lookup st "model_type" with
  | none => rfl
  | some a =>
    cases Dict.lookup st "last_model_per_family" with
    | none => rfl
    | some b =>
      cases Dict.lookup st "last_model_per_type" with
      | none => rfl
      | some c =>
        cases Dict.lookup st "advanced" with
        | none => rfl
        | some d =>
          cases Dict.lookup st "last_resolution_per_group" with
          | none => rfl
          | some e => rfl

theorem save_changes_unlocked_success (ps : PluginState) (st : Dict) (f : FormInputs)
    (h : ps.lock_config = false) {mt lmf lmt adv lrg : CVal}
    (h1 : Dict.lookup st "model_type" = some mt)
    (h2 : Dict.lookup st "last_model_per_family" = some lmf)
    (h3 : Dict.lookup st "last_model_per_type" = some lmt)
    (h4 : Dict.lookup st "advanced" = some adv)
    (h5 : Dict.lookup st "last_resolution_per_group" = some lrg) :
    save_changes ps st f =
      { output := SaveOutput.ok savedMessage,
        written := some (build_record false ps.server_config f
          (computeCheckpoints ps.default_checkpoints_paths f.checkpoints_paths_choice)
          mt lmf lmt adv lrg),
        server_config := Dict.updateWith ps.server_config (build_record false ps.server_config f
          (computeCheckpoints ps.default_checkpoints_paths f.checkpoints_paths_choice)
          mt lmf lmt adv lrg),
        registry_paths :=
          computeCheckpoints ps.default_checkpoints_paths f.checkpoints_paths_choice } := by
  simp only [save_changes, h, Bool.false_eq_true, if_false, h1, h2, h3, h4, h5]

theorem save_changes_written_inv (ps : PluginState) (st : Dict) (f : FormInputs) (r : Dict)
    (hw : (save_changes ps st f).written = some r) :
    ps.lock_config = false ∧
    ∃ mt lmf lmt adv lrg : CVal,
      Dict.lookup st "model_type" = some mt ∧
      Dict.lookup st "last_model_per_family" = some lmf ∧
      Dict.lookup st "last_model_per_type" = some lmt ∧
      Dict.lookup st "advanced" = some adv ∧
      Dict.lookup st "last_resolution_per_group" = some lrg ∧
      r = build_record false ps.server_config f
            (computeCheckpoints ps.default_checkpoints_paths f.checkpoints_paths_choice)
            mt lmf lmt adv lrg := by
  by_cases h : ps.lock_config = true
  · rw [save_changes_locked ps st f h] at hw
    cases hw
  · have hf : ps.lock_config = false := by
      cases hb : ps.lock_config
      · rfl
      · exact absurd hb h
    refine ⟨hf, ?_⟩
    simp only [save_changes, hf, Bool.false_eq_true, if_false] at hw
    cases h1 : Dict.lookup st "model_type" with
    | none => rw [h1] at hw; cases hw
    | some mt =>
      rw [h1] at hw
      cases h2 : Dict.lookup st "last_model_per_family" with
      | none => rw [h2] at hw; cases hw
      | some lmf =>
        rw [h2] at hw
        cases h3 : Dict.lookup st "last_model_per_type" with
        | none => rw [h3] at hw; cases hw
        | some lmt =>
          rw [h3] at hw
          cases h4 : Dict.lookup st "advanced" with
          | none => rw [h4] at hw; cases hw
          | some adv =>
            rw [h4] at hw
            cases h5 : Dict.lookup st "last_resolution_per_group" with
            | none => rw [h5] at hw; cases hw
            | some lrg =>
              rw [h5] at hw
              refine ⟨mt, lmf, lmt, adv, lrg, rfl, rfl, rfl, rfl, rfl, ?_⟩
              simp only [Option.some.injEq] at hw
              exact hw.symm

/-! ### Normalization facts used by the path-list claims -/

theorem specSplitTrim_eq (t : String) : specSplitTrim t = splitTrimDrop t := by
  unfold specSplitTrim splitTrimDrop
  rw [List.filter_map]
  rfl

theorem splitTrimDrop_clean (t : String) : ∀ s ∈ splitTrimDrop t, cleanPath s := by
  intro s hs
  unfold splitTrimDrop at hs
  rw [List.mem_map] at hs
  obtain ⟨p, hp, hps⟩ := hs
  rw [List.mem_filter] at hp
  obtain ⟨hpmem, hplen⟩ := hp
  subst hps
  refine ⟨?_, ?_, ?_, ?_⟩
  · intro h0
    rw [h0] at hplen
    simp at hplen
  · intro c hc hcr
    have hc2 : c ∈ p.data := mem_pyStripList hc
    unfold splitNL at hpmem
    rw [List.mem_map] at hpmem
    obtain ⟨l0, hl0, hpl0⟩ := hpmem
    have hc3 : c ∈ (removeCR t).data := by
      refine mem_of_mem_splitOnNL hl0 ?_
      rw [← hpl0] at hc2
      exact hc2
    have : c ≠ '\r' := by
      have := List.mem_filter.mp (hc3 : c ∈ t.data.filter (fun c => c ≠ '\r'))
      simpa using this.2
    exact this hcr
  · exact pyStripList_head_all p.data
  · exact pyStripList_getLast_all p.data

theorem splitTrimDrop_ne_nil {t : String}
    (h : (pyStrip t).data.length ≠ 0) : splitTrimDrop t ≠ [] :=
  fun h0 => h (splitTrimDrop_eq_nil_imp h0)

/-! ### Claim theorems -/

/-- C1: for every input, when args.lock_config is active _save_changes
returns the red locked-notice message, performs no file write, and leaves
the in-memory server_config and the checkpoints-paths registry
unchanged. -/
theorem C1_locked_save_is_noop (ps : PluginState) (st : Dict) (f : FormInputs)
    (h : ps.lock_config = true) :
    (save_changes ps st f).output = SaveOutput.ok lockedMessage ∧
    (save_changes ps st f).written = none ∧
    (save_changes ps st f).server_config = ps.server_config ∧
    (save_changes ps st f).registry_paths = ps.registry_paths := by
  rw [save_changes_locked ps st f h]
  exact ⟨rfl, rfl, rfl, rfl⟩

/-- Witness for C1 at a concrete locked state. -/
theorem C1_witness :
    exPsLocked.lock_config = true ∧
    ((save_changes exPsLocked exState exForm).output = SaveOutput.ok lockedMessage ∧
     (save_changes exPsLocked exState exForm).written = none ∧
     (save_changes exPsLocked exState exForm).server_config = exPsLocked.server_config ∧
     (save_changes exPsLocked exState exForm).registry_paths = exPsLocked.registry_paths) :=
  ⟨rfl, C1_locked_save_is_noop exPsLocked exState exForm rfl⟩

/-- C2 counterexample: the only lock the code has is the global
args.lock_config, and under it _save_changes writes no record at all even
though the persisted attention_mode and compile differ from the submitted
values; so no written record ever maps those keys to the previously
persisted values. -/
theorem C2_counterexample :
    exPsLocked.lock_config = true ∧
    Dict.lookup exPsLocked.server_config "attention_mode" = some (CVal.s "sage") ∧
    exForm.attention_choice = CVal.s "sdpa" ∧
    Dict.lookup exPsLocked.server_config "compile" = some (CVal.s "transformer") ∧
    exForm.compile_choice = CVal.s "" ∧
    (save_changes exPsLocked exState exForm).written = none :=
  ⟨rfl, rfl, rfl, rfl, rfl, rfl⟩

/-- C2 (amended): the lines-238-240 override is dead code; every record
_save_changes actually writes maps attention_mode and compile to the
user-submitted values, never to the previously persisted ones. -/
theorem C2_written_record_keeps_submitted_lock_fields (ps : PluginState) (st : Dict)
    (f : FormInputs) (r : Dict) (hw : (save_changes ps st f).written = some r) :
    Dict.lookup r "attention_mode" = some f.attention_choice ∧
    Dict.lookup r "compile" = some f.compile_choice := by
  obtain ⟨-, mt, lmf, lmt, adv, lrg, -, -, -, -, -, hr⟩ :=
    save_changes_written_inv ps st f r hw
  subst hr
  constructor
  · rw [build_record_false_lookup_not_ep _ _ _ _ _ _ _ _ (by decide)]
    exact dict_literal_lookup_attention _ _ _ _ _ _ _
  · rw [build_record_false_lookup_not_ep _ _ _ _ _ _ _ _ (by decide)]
    exact dict_literal_lookup_compile _ _ _ _ _ _ _

/-- Witness for the amended C2 at a concrete unlocked save. -/
theorem C2_witness :
    (save_changes exPsUnlocked exState exForm).written = some exWritten ∧
    Dict.lookup exWritten "attention_mode" = some exForm.attention_choice ∧
    Dict.lookup exWritten "compile" = some exForm.compile_choice :=
  ⟨rfl, C2_written_record_keeps_submitted_lock_fields exPsUnlocked exState exForm exWritten rfl⟩

/-- C3: a submission whose split/trim/drop-empty-lines normalization is
empty makes an unlocked _save_changes install the default path list in
the registry and persist it under checkpoints_paths. -/
theorem C3_empty_submission_uses_default (ps : PluginState) (st : Dict) (f : FormInputs)
    (hl : ps.lock_config = false)
    (he : splitTrimDrop f.checkpoints_paths_choice = []) :
    (save_changes ps st f).registry_paths = ps.default_checkpoints_paths ∧
    ∀ r, (save_changes ps st f).written = some r →
      Dict.lookup r "checkpoints_paths" = some (CVal.ls ps.default_checkpoints_paths) := by
  have hg : (pyStrip f.checkpoints_paths_choice).data.length = 0 :=
    splitTrimDrop_eq_nil_imp he
  have hcc : computeCheckpoints ps.default_checkpoints_paths f.checkpoints_paths_choice
      = ps.default_checkpoints_paths := by
    unfold computeCheckpoints; rw [if_pos hg]
  constructor
  · rw [save_changes_registry_unlocked ps st f hl, hcc]
  · intro r hw
    obtain ⟨-, mt, lmf, lmt, adv, lrg, -, -, -, -, -, hr⟩ :=
      save_changes_written_inv ps st f r hw
    subst hr
    rw [hcc, build_record_false_lookup_not_ep _ _ _ _ _ _ _ _ (by decide)]
    exact dict_literal_lookup_checkpoints _ _ _ _ _ _ _

/-- Witness for C3 at a whitespace-only submission. -/
theorem C3_witness :
    (save_changes exPsUnlocked exState exFormWS).registry_paths
        = exPsUnlocked.default_checkpoints_paths ∧
    ∀ r, (save_changes exPsUnlocked exState exFormWS).written = some r →
      Dict.lookup r "checkpoints_paths"
        = some (CVal.ls exPsUnlocked.default_checkpoints_paths) :=
  C3_empty_submission_uses_default exPsUnlocked exState exFormWS rfl (by decide)

/-- C4: for a submission that is non-empty after stripping, the persisted
checkpoints_paths value is the remove-carriage-returns / split-on-newline /
strip-each-line / drop-empty-lines normalization, order preserved. -/
theorem C4_nonempty_submission_normalized (ps : PluginState) (st : Dict)
    (f : FormInputs) (r : Dict)
    (hne : (pyStrip f.checkpoints_paths_choice).data.length ≠ 0)
    (hw : (save_changes ps st f).written = some r) :
    Dict.lookup r "checkpoints_paths"
      = some (CVal.ls (specSplitTrim f.checkpoints_paths_choice)) := by
  obtain ⟨-, mt, lmf, lmt, adv, lrg, -, -, -, -, -, hr⟩ :=
    save_changes_written_inv ps st f r hw
  subst hr
  have hcc : computeCheckpoints ps.default_checkpoints_paths f.checkpoints_paths_choice
      = splitTrimDrop f.checkpoints_paths_choice := by
    unfold computeCheckpoints; rw [if_neg hne]
  rw [hcc, build_record_false_lookup_not_ep _ _ _ _ _ _ _ _ (by decide),
      dict_literal_lookup_checkpoints, specSplitTrim_eq]

/-- Witness for C4 at a concrete multi-line submission. -/
theorem C4_witness :
    (save_changes exPsUnlocked exState exForm).written = some exWritten ∧
    Dict.lookup exWritten "checkpoints_paths"
      = some (CVal.ls (specSplitTrim exForm.checkpoints_paths_choice)) :=
  ⟨rfl, C4_nonempty_submission_normalized exPsUnlocked exState exForm exWritten
    (by decide) rfl⟩

/-- C5 counterexample: when the prior configuration holds enabled_plugins,
the written file's key list is the form-field schema plus enabled_plugins,
a key no form field determines, so the key set does not equal the
form-field schema. -/
theorem C5_counterexample :
    exPsEP.lock_config = false ∧
    ((save_changes exPsEP exState exForm).written.map Dict.keys)
      = some (schemaKeys ++ ["enabled_plugins"]) ∧
    "enabled_plugins" ∉ schemaKeys ∧
    schemaKeys ++ ["enabled_plugins"] ≠ schemaKeys :=
  ⟨rfl, rfl, by decide, by decide⟩

/-- C5 (amended): an unlocked save writes a record whose key list is
exactly the form-field schema, plus enabled_plugins appended exactly when
the prior configuration contains that key; no other key appears and
nothing else of the prior file survives. -/
theorem C5_written_keys (ps : PluginState) (st : Dict) (f : FormInputs) (r : Dict)
    (hl : ps.lock_config = false)
    (hw : (save_changes ps st f).written = some r) :
    Dict.keys r =
      (if (Dict.lookup ps.server_config "enabled_plugins").isSome
       then schemaKeys ++ ["enabled_plugins"] else schemaKeys) := by
  obtain ⟨-, mt, lmf, lmt, adv, lrg, -, -, -, -, -, hr⟩ :=
    save_changes_written_inv ps st f r hw
  subst hr
  exact build_record_false_keys _ _ _ _ _ _ _ _

/-- Witness for the amended C5 at a prior config carrying enabled_plugins. -/
theorem C5_witness :
    (save_changes exPsEP exState exForm).written = some exWrittenEP ∧
    Dict.keys exWrittenEP =
      (if (Dict.lookup exPsEP.server_config "enabled_plugins").isSome
       then schemaKeys ++ ["enabled_plugins"] else schemaKeys) :=
  ⟨rfl, C5_written_keys exPsEP exState exForm exWrittenEP rfl rfl⟩

/-- C6: after an unlocked save, the in-memory server_config maps every key
of the newly written record to that record's value. -/
theorem C6_server_config_reflects_record (ps : PluginState) (st : Dict) (f : FormInputs)
    (r : Dict) (hl : ps.lock_config = false)
    (hw : (save_changes ps st f).written = some r) {k : String} {v : CVal}
    (hk : Dict.lookup r k = some v) :
    Dict.lookup (save_changes ps st f).server_config k = some v := by
  obtain ⟨-, mt, lmf, lmt, adv, lrg, h1, h2, h3, h4, h5, hr⟩ :=
    save_changes_written_inv ps st f r hw
  rw [save_changes_unlocked_success ps st f hl h1 h2 h3 h4 h5]
  apply Dict.lookup_updateWith_of_lookup
  · rw [build_record_false_keys]
    by_cases hep : (Dict.lookup ps.server_config "enabled_plugins").isSome = true
    · rw [if_pos hep]; exact schemaKeys_ep_nodup
    · rw [if_neg hep]; exact schemaKeys_nodup
  · rw [← hr]; exact hk

/-- Witness for C6: the saved attention mode is visible in server_config. -/
theorem C6_witness :
    (save_changes exPsUnlocked exState exForm).written = some exWritten ∧
    Dict.lookup exWritten "attention_mode" = some (CVal.s "sdpa") ∧
    Dict.lookup (save_changes exPsUnlocked exState exForm).server_config "attention_mode"
      = some (CVal.s "sdpa") :=
  ⟨rfl, rfl, C6_server_config_reflects_record exPsUnlocked exState exForm exWritten
    rfl rfl rfl⟩

/-- C7: with the lock disabled and the five state keys present,
_save_changes validates nothing: for arbitrary submitted values it
performs the write and returns the green success message. -/
theorem C7_no_validation (ps : PluginState) (st : Dict) (f : FormInputs)
    (hl : ps.lock_config = false) {mt lmf lmt adv lrg : CVal}
    (h1 : Dict.lookup st "model_type" = some mt)
    (h2 : Dict.lookup st "last_model_per_family" = some lmf)
    (h3 : Dict.lookup st "last_model_per_type" = some lmt)
    (h4 : Dict.lookup st "advanced" = some adv)
    (h5 : Dict.lookup st "last_resolution_per_group" = some lrg) :
    (save_changes ps st f).output = SaveOutput.ok savedMessage ∧
    (save_changes ps st f).written.isSome = true := by
  rw [save_changes_unlocked_success ps st f hl h1 h2 h3 h4 h5]
  exact ⟨rfl, rfl⟩

/-- Witness for C7 at a concrete unlocked save. -/
theorem C7_witness :
    (save_changes exPsUnlocked exState exForm).output = SaveOutput.ok savedMessage ∧
    (save_changes exPsUnlocked exState exForm).written.isSome = true :=
  C7_no_validation exPsUnlocked exState exForm rfl rfl rfl rfl rfl rfl

/-- C8 counterexample: with the lock disabled and a state dictionary
missing model_type, _save_changes raises KeyError, so _save_and_restart
never reaches quit_application; hence the quit call is not made on every
input. -/
theorem C8_counterexample :
    exPsUnlocked.lock_config = false ∧
    (save_and_restart exPsUnlocked exStateEmpty exForm).save.output
      = SaveOutput.keyError "model_type" ∧
    (save_and_restart exPsUnlocked exStateEmpty exForm).quit_called = false :=
  ⟨rfl, rfl, rfl⟩

/-- C8 (amended): _save_and_restart reaches quit_application exactly when
_save_changes returns normally (does not raise); in particular under the
administrative lock it always restarts, with nothing written and the
locked-notice return value discarded. -/
theorem C8_quit_follows_normal_return (ps : PluginState) (st : Dict) (f : FormInputs) :
    ((save_and_restart ps st f).quit_called = true ↔
      ∃ m, (save_changes ps st f).output = SaveOutput.ok m) ∧
    (ps.lock_config = true →
      (save_and_restart ps st f).quit_called = true ∧
      (save_and_restart ps st f).save.written = none ∧
      (save_and_restart ps st f).save.output = SaveOutput.ok lockedMessage) := by
  constructor
  · simp only [save_and_restart]
    cases ho : (save_changes ps st f).output with
    | ok m => simp [ho]
    | keyError k => simp [ho]
  · intro h
    simp only [save_and_restart]
    rw [save_changes_locked ps st f h]
    exact ⟨rfl, rfl, rfl⟩

/-- Witness for the amended C8: a locked call still quits, writes nothing
and drops the locked notice. -/
theorem C8_witness :
    (save_and_restart exPsLocked exState exForm).quit_called = true ∧
    (save_and_restart exPsLocked exState exForm).save.written = none ∧
    (save_and_restart exPsLocked exState exForm).save.output = SaveOutput.ok lockedMessage :=
  (C8_quit_follows_normal_return exPsLocked exState exForm).2 rfl

/-- C9 counterexample: the default list is external to _save_changes; a
non-empty default containing the empty string is installed verbatim by a
whitespace-only submission, so non-emptiness of the default alone does not
give the claimed element-wise invariant. -/
theorem C9_counterexample :
    exPsBadDefault.default_checkpoints_paths ≠ [] ∧
    (save_changes exPsBadDefault exState exFormWS).registry_paths = [""] ∧
    ((save_changes exPsBadDefault exState exFormWS).written.map
      (fun r => Dict.lookup r "checkpoints_paths")) = some (some (CVal.ls [""])) ∧
    ¬ cleanPath "" :=
  ⟨by decide, rfl, rfl, by decide⟩

/-- C9 (amended): when the default path list is non-empty and each of its
entries is clean (non-empty, carriage-return-free, no leading or trailing
whitespace), every list an unlocked _save_changes installs in the registry
is non-empty with clean entries, and any written record persists exactly
that list. -/
theorem C9_installed_paths_clean (ps : PluginState) (st : Dict) (f : FormInputs)
    (hl : ps.lock_config = false)
    (hd0 : ps.default_checkpoints_paths ≠ [])
    (hdc : ∀ s ∈ ps.default_checkpoints_paths, cleanPath s) :
    (save_changes ps st f).registry_paths ≠ [] ∧
    (∀ s ∈ (save_changes ps st f).registry_paths, cleanPath s) ∧
    ∀ r, (save_changes ps st f).written = some r →
      Dict.lookup r "checkpoints_paths"
        = some (CVal.ls (save_changes ps st f).registry_paths) := by
  rw [save_changes_registry_unlocked ps st f hl]
  refine ⟨?_, ?_, ?_⟩
  · unfold computeCheckpoints
    by_cases hg : (pyStrip f.checkpoints_paths_choice).data.length = 0
    · rw [if_pos hg]; exact hd0
    · rw [if_neg hg]; exact splitTrimDrop_ne_nil hg
  · unfold computeCheckpoints
    by_cases hg : (pyStrip f.checkpoints_paths_choice).data.length = 0
    · rw [if_pos hg]; exact hdc
    · rw [if_neg hg]; exact splitTrimDrop_clean f.checkpoints_paths_choice
  · intro r hw
    obtain ⟨-, mt, lmf, lmt, adv, lrg, -, -, -, -, -, hr⟩ :=
      save_changes_written_inv ps st f r hw
    subst hr
    rw [build_record_false_lookup_not_ep _ _ _ _ _ _ _ _ (by decide)]
    exact dict_literal_lookup_checkpoints _ _ _ _ _ _ _

/-- Witness for the amended C9 with a clean default list. -/
theorem C9_witness :
    (save_changes exPsUnlocked exState exForm).registry_paths ≠ [] ∧
    (∀ s ∈ (save_changes exPsUnlocked exState exForm).registry_paths, cleanPath s) ∧
    ∀ r, (save_changes exPsUnlocked exState exForm).written = some r →
      Dict.lookup r "checkpoints_paths"
        = some (CVal.ls (save_changes exPsUnlocked exState exForm).registry_paths) :=
  C9_installed_paths_clean exPsUnlocked exState exForm rfl (by decide) (by decide)

/-- C10: an unlocked save carries enabled_plugins into the written record
exactly as the prior configuration has it (present with the same value, or
absent), and no other key outside the form-field schema appears in the
record. -/
theorem C10_enabled_plugins_carryover (ps : PluginState) (st : Dict) (f : FormInputs)
    (r : Dict) (hl : ps.lock_config = false)
    (hw : (save_changes ps st f).written = some r) :
    Dict.lookup r "enabled_plugins" = Dict.lookup ps.server_config "enabled_plugins" ∧
    ∀ k, k ∉ schemaKeys → k ≠ "enabled_plugins" → Dict.lookup r k = none := by
  obtain ⟨-, mt, lmf, lmt, adv, lrg, -, -, -, -, -, hr⟩ :=
    save_changes_written_inv ps st f r hw
  subst hr
  constructor
  · exact build_record_false_lookup_ep _ _ _ _ _ _ _ _
  · intro k hk1 hk2
    rw [Dict.lookup_eq_none_iff, build_record_false_keys]
    by_cases hep : (Dict.lookup ps.server_config "enabled_plugins").isSome = true
    · rw [if_pos hep]
      intro hmem
      rcases List.mem_append.mp hmem with h | h
      · exact hk1 h
      · exact hk2 (List.mem_singleton.mp h)
    · rw [if_neg hep]; exact hk1

/-- Witness for C10: enabled_plugins survives into the concrete written
record, and a stale non-schema key does not. -/
theorem C10_witness :
    (save_changes exPsEP exState exForm).written = some exWrittenEP ∧
    Dict.lookup exWrittenEP "enabled_plugins"
      = Dict.lookup exPsEP.server_config "enabled_plugins" ∧
    Dict.lookup exWrittenEP "stale_key" = none :=
  ⟨rfl, (C10_enabled_plugins_carryover exPsEP exState exForm exWrittenEP rfl rfl).1,
   (C10_enabled_plugins_carryover exPsEP exState exForm exWrittenEP rfl rfl).2
     "stale_key" (by decide) (by decide)⟩
